import Mathlib

/-!
Shallow embedding of the Bugfree VS Code extension client
(src/vscode-extension/src/extension.ts, with the compiled
src/vscode-extension/out/extension.js used for the refinement claim).

The component is a tree-data provider holding two insertion-ordered
sequences (errors, suggestions), one socket connection flag, and a set of
event handlers and command callbacks.  Each handler/command is embedded as
a pure function from the provider state to a new state together with the
list of observable effects it performs (network sends, user-visible
notices, console logs, tree refreshes, webview panel creations).

Dynamic-typing conventions of the embedding:
* A parsed inbound JSON message (`message: any`) is modelled by the record
  `InboundMessage` holding the three fields the handler reads
  (`type`, `error`, `suggestions`); an absent / null / falsy field is
  modelled as `none`.
* `JSON.parse` throwing on malformed input is modelled by an
  `Option InboundMessage` argument to the message event handler: `none`
  is a raw payload that failed to parse.
* `x || d` on an optional string models JavaScript truthiness: both a
  missing value and the empty string fall back to the default
  (`jsOrString`).
* `Math.round x` is modelled on rationals as `⌊x + 1/2⌋`.
-/

/-- The `ErrorContext` record from extension.ts (lines 4-11). -/
structure ErrorContext where
  error_type : String
  error_message : String
  file_path : String
  line_number : Int
  severity : String
  timestamp : String
deriving DecidableEq, Repr

/-- The `FixSuggestion` record from extension.ts (lines 13-20); the optional
`explanation?` field is an `Option`. -/
structure FixSuggestion where
  title : String
  description : String
  code_snippet : String
  confidence_score : ℚ
  agent_source : String
  explanation : Option String
deriving DecidableEq, Repr

/-- A parsed inbound JSON message, restricted to the three fields the
handler accesses (`message.type`, `message.error`, `message.suggestions`).
`none` models an absent, null or otherwise falsy field. -/
structure InboundMessage where
  type : String
  error : Option ErrorContext
  suggestions : Option (List FixSuggestion)
deriving DecidableEq, Repr

/-- Outbound wire messages (the argument of `JSON.stringify` in each
`ws.send` call). -/
inductive OutboundMessage where
  | start_system
  | stop_system
  | apply_fix (suggestion : FixSuggestion)
  | analyze_error (file : String) (line : Int)
deriving DecidableEq, Repr

/-- User-visible toast notices (`vscode.window.show*Message`). -/
inductive Notice where
  | info (msg : String)
  | warning (msg : String)
  | error (msg : String)
deriving DecidableEq, Repr

/-- Dynamic content of the webview created by `explainFix`
(extension.ts lines 195-233): the panel title and the value of each
`${...}` slot of its HTML template.  The static template text is a
fixed string and is elided. -/
structure ExplanationPanel where
  panelTitle : String
  shownTitle : String
  shownDescription : String
  shownCode : String
  shownExplanation : String
  shownAgent : String
  shownConfidencePercent : Int
deriving DecidableEq, Repr

/-- Dynamic content of the webview created by the
`bugfree.showErrorDetails` command (extension.ts lines 324-355). -/
structure ErrorDetailsPanel where
  panelTitle : String
  shownType : String
  shownMessage : String
  shownFile : String
  shownLine : Int
  shownTimestamp : String
deriving DecidableEq, Repr

/-- A webview panel created by the component. -/
inductive Panel where
  | explanation (p : ExplanationPanel)
  | errorDetails (p : ErrorDetailsPanel)
deriving DecidableEq, Repr

/-- Observable effects of one handler or command invocation. -/
inductive Effect where
  | send (m : OutboundMessage)
  | notice (n : Notice)
  | log (msg : String)
  | refresh
  | panel (p : Panel)
  | closeWs
deriving DecidableEq, Repr

/-- Provider state: the two sequences, the connected flag, and whether
`this.ws` is non-null.  An error sequence entry is `Option ErrorContext`
because `currentErrors.push(message.error)` pushes whatever the untyped
field holds, including `undefined`. -/
structure BugfreeState where
  currentErrors : List (Option ErrorContext)
  currentSuggestions : List FixSuggestion
  isConnected : Bool
  hasWs : Bool
deriving DecidableEq, Repr

/-- JavaScript `x || d` on an optional string: a missing value and the
empty string are falsy, any other string is truthy. -/
def jsOrString (x : Option String) (d : String) : String :=
  match x with
  | some s => if s = "" then d else s
  | none => d

/-- JavaScript `Math.round`, on rationals. -/
def jsRound (q : ℚ) : Int := ⌊q + 1/2⌋

/-- Embedding of `handleBugfreeMessage` (extension.ts lines 80-88): `error_detected`
pushes `message.error` onto the error sequence and refreshes;
`suggestions_ready` replaces the suggestion sequence with
`message.suggestions || []` and refreshes; any other tag does nothing. -/
def handleBugfreeMessage (message : InboundMessage) (st : BugfreeState) :
    BugfreeState × List Effect :=
  if message.type = "error_detected" then
    ({ st with currentErrors := st.currentErrors ++ [message.error] },
     [Effect.refresh])
  else if message.type = "suggestions_ready" then
    ({ st with currentSuggestions := message.suggestions.getD [] },
     [Effect.refresh])
  else
    (st, [])

/-- The `message` event handler installed by `connectToBugfree`
(extension.ts lines 55-62): parse the raw payload and dispatch to
`handleBugfreeMessage`; a parse failure is caught and only logged.
`parsed = none` models `JSON.parse` throwing on the raw payload. -/
def onMessageEvent (parsed : Option InboundMessage) (st : BugfreeState) :
    BugfreeState × List Effect :=
  match parsed with
  | some message => handleBugfreeMessage message st
  | none => (st, [Effect.log "Error parsing Bugfree message:"])

/-- The `open` event handler (extension.ts lines 49-53). -/
def onOpenEvent (st : BugfreeState) : BugfreeState × List Effect :=
  ({ st with isConnected := true },
   [Effect.notice (Notice.info "Connected to Bugfree system"), Effect.refresh])

/-- The `close` event handler (extension.ts lines 64-68). -/
def onCloseEvent (st : BugfreeState) : BugfreeState × List Effect :=
  ({ st with isConnected := false },
   [Effect.notice (Notice.warning "Disconnected from Bugfree system"),
    Effect.refresh])

/-- The `error` event handler (extension.ts lines 70-73): logs and shows
an error notice; it does not modify any state field. -/
def onErrorEvent (st : BugfreeState) : BugfreeState × List Effect :=
  (st, [Effect.log "WebSocket error:",
        Effect.notice (Notice.error "Failed to connect to Bugfree system")])

/-- Embedding of `startSystem` (extension.ts lines 169-176): guarded by
`this.ws && this.isConnected`; sends and shows an info notice when
connected, otherwise shows an error notice. -/
def startSystem (st : BugfreeState) : BugfreeState × List Effect :=
  if st.hasWs && st.isConnected then
    (st, [Effect.send OutboundMessage.start_system,
          Effect.notice (Notice.info "Starting Bugfree system...")])
  else
    (st, [Effect.notice (Notice.error "Not connected to Bugfree system")])

/-- Embedding of `stopSystem` (extension.ts lines 178-183): same guard, but there is
no `else` branch — nothing at all happens when not connected. -/
def stopSystem (st : BugfreeState) : BugfreeState × List Effect :=
  if st.hasWs && st.isConnected then
    (st, [Effect.send OutboundMessage.stop_system,
          Effect.notice (Notice.info "Stopping Bugfree system...")])
  else
    (st, [])

/-- Embedding of `applyFix` (extension.ts lines 185-193): same guard, and again no
`else` branch. -/
def applyFix (suggestion : FixSuggestion) (st : BugfreeState) :
    BugfreeState × List Effect :=
  if st.hasWs && st.isConnected then
    (st, [Effect.send (OutboundMessage.apply_fix suggestion),
          Effect.notice (Notice.info ("Applying fix: " ++ suggestion.title))])
  else
    (st, [])

/-- Embedding of `explainFix` (extension.ts lines 195-233): resolves
the fallback of `suggestion.explanation` to the default text and creates a
webview panel whose template slots show the suggestion fields; it never
touches the socket or the sequences. -/
def explainFix (suggestion : FixSuggestion) (st : BugfreeState) :
    BugfreeState × List Effect :=
  let explanation := jsOrString suggestion.explanation "No explanation available"
  (st, [Effect.panel (Panel.explanation
    { panelTitle := "Fix Explanation: " ++ suggestion.title
      shownTitle := suggestion.title
      shownDescription := suggestion.description
      shownCode := suggestion.code_snippet
      shownExplanation := explanation
      shownAgent := suggestion.agent_source
      shownConfidencePercent := jsRound (suggestion.confidence_score * 100) })])

/-- State of the active text editor for the `bugfree.analyzeError`
command: the document file name and the zero-based cursor line. -/
structure ActiveEditor where
  fileName : String
  selectionLine : Int
deriving DecidableEq, Repr

/-- The `bugfree.analyzeError` command callback (extension.ts lines
281-303): with an active editor it sends `analyze_error` for
`position.line + 1` when connected, else shows an error notice; with no
editor it shows a different error notice. -/
def analyzeErrorCmd (editor : Option ActiveEditor) (st : BugfreeState) :
    BugfreeState × List Effect :=
  match editor with
  | some ed =>
    if st.hasWs && st.isConnected then
      (st, [Effect.send (OutboundMessage.analyze_error ed.fileName (ed.selectionLine + 1)),
            Effect.notice (Notice.info "Analyzing error...")])
    else
      (st, [Effect.notice (Notice.error "Not connected to Bugfree system")])
  | none => (st, [Effect.notice (Notice.error "No active editor")])

/-- The `bugfree.ignoreError` command callback (extension.ts lines
317-321): only shows an info notice; no state field is touched. -/
def ignoreErrorCmd (e : ErrorContext) (st : BugfreeState) :
    BugfreeState × List Effect :=
  (st, [Effect.notice (Notice.info ("Ignored error: " ++ e.error_message))])

/-- The `bugfree.showErrorDetails` command callback (extension.ts lines
324-355): creates a webview panel showing the error fields. -/
def showErrorDetailsCmd (e : ErrorContext) (st : BugfreeState) :
    BugfreeState × List Effect :=
  (st, [Effect.panel (Panel.errorDetails
    { panelTitle := "Error Details: " ++ e.error_type
      shownType := e.error_type
      shownMessage := e.error_message
      shownFile := e.file_path
      shownLine := e.line_number
      shownTimestamp := e.timestamp })])

/-- The `bugfree.showSuggestionDetails` command callback (extension.ts
lines 358-361): delegates to `explainFix`. -/
def showSuggestionDetailsCmd (suggestion : FixSuggestion) (st : BugfreeState) :
    BugfreeState × List Effect :=
  explainFix suggestion st

/-- Embedding of `dispose` (extension.ts lines 235-239): closes the socket when one
exists; the sequences and flags are not touched here (the host later
delivers the `close` event separately). -/
def dispose (st : BugfreeState) : BugfreeState × List Effect :=
  if st.hasWs then (st, [Effect.closeWs]) else (st, [])

/-- The `bugfree` configuration section read by `connectToBugfree`:
`none` models a setting the user has not configured, so that
`config.get(key, default)` falls back. -/
structure BugfreeConfig where
  serverHost : Option String
  serverPort : Option Nat
deriving DecidableEq, Repr

/-- The resolved connection target of `connectToBugfree`. -/
structure ConnectTarget where
  host : String
  port : Nat
deriving DecidableEq, Repr

/-- Connection target resolution in the TypeScript source
(src/vscode-extension/src/extension.ts lines 42-44):
host defaults to localhost, port to 8003. -/
def connectTarget_src (config : BugfreeConfig) : ConnectTarget :=
  { host := config.serverHost.getD "localhost"
    port := config.serverPort.getD 8003 }

/-- Connection target resolution in the compiled output
(src/vscode-extension/out/extension.js lines 53-55):
host defaults to localhost, port to 8000. -/
def connectTarget_out (config : BugfreeConfig) : ConnectTarget :=
  { host := config.serverHost.getD "localhost"
    port := config.serverPort.getD 8000 }

/-- The WebSocket URL built from a connection target. -/
def wsUrl (t : ConnectTarget) : String :=
  "ws://" ++ t.host ++ ":" ++ toString t.port

/-- Whether an effect is a network write (`ws.send`). -/
def Effect.isSend : Effect → Bool
  | Effect.send _ => true
  | _ => false

/-- Whether an effect is a user-visible toast notice. -/
def Effect.isNotice : Effect → Bool
  | Effect.notice _ => true
  | _ => false

/-- Whether an effect is a console log only. -/
def Effect.isLog : Effect → Bool
  | Effect.log _ => true
  | _ => false

/-- Number of network writes among a list of effects. -/
def sendCount (effs : List Effect) : Nat :=
  (effs.filter Effect.isSend).length

/-- Number of user-visible notices among a list of effects. -/
def noticeCount (effs : List Effect) : Nat :=
  (effs.filter Effect.isNotice).length

/-- The explanation text rendered by the first explanation panel among a
list of effects, if any. -/
def shownExplanationOf : List Effect → Option String
  | [] => none
  | Effect.panel (Panel.explanation p) :: _ => some p.shownExplanation
  | _ :: rest => shownExplanationOf rest

/-- Every operation of the component: host-delivered socket events and
registered command callbacks, with their inputs. -/
inductive Op where
  | openEvent
  | closeEvent
  | errorEvent
  | messageEvent (parsed : Option InboundMessage)
  | cmdStartSystem
  | cmdStopSystem
  | cmdApplyFix (suggestion : FixSuggestion)
  | cmdExplainFix (suggestion : FixSuggestion)
  | cmdAnalyzeError (editor : Option ActiveEditor)
  | cmdIgnoreError (e : ErrorContext)
  | cmdShowErrorDetails (e : ErrorContext)
  | cmdShowSuggestionDetails (suggestion : FixSuggestion)
  | disposeOp
deriving DecidableEq, Repr

/-- One reaction of the component to a host-delivered event or command. -/
def step (op : Op) (st : BugfreeState) : BugfreeState × List Effect :=
  match op with
  | Op.openEvent => onOpenEvent st
  | Op.closeEvent => onCloseEvent st
  | Op.errorEvent => onErrorEvent st
  | Op.messageEvent parsed => onMessageEvent parsed st
  | Op.cmdStartSystem => startSystem st
  | Op.cmdStopSystem => stopSystem st
  | Op.cmdApplyFix s => applyFix s st
  | Op.cmdExplainFix s => explainFix s st
  | Op.cmdAnalyzeError ed => analyzeErrorCmd ed st
  | Op.cmdIgnoreError e => ignoreErrorCmd e st
  | Op.cmdShowErrorDetails e => showErrorDetailsCmd e st
  | Op.cmdShowSuggestionDetails s => showSuggestionDetailsCmd s st
  | Op.disposeOp => dispose st

/-- The state after running a sequence of operations. -/
def run (ops : List Op) (st : BugfreeState) : BugfreeState :=
  ops.foldl (fun s op => (step op s).1) st

/-! ### Sample values used by witnesses and counterexamples -/

/-- A concrete error record. -/
def sampleError : ErrorContext :=
  { error_type := "TypeError"
    error_message := "object is not callable"
    file_path := "main.py"
    line_number := 3
    severity := "high"
    timestamp := "2024-01-01T00:00:00Z" }

/-- A concrete suggestion with a non-empty explanation. -/
def sampleSuggestion : FixSuggestion :=
  { title := "Add null check"
    description := "Guard the attribute access"
    code_snippet := "if x is not None: use(x)"
    confidence_score := 9/10
    agent_source := "code_agent"
    explanation := some "The variable can be None here" }

/-- A concrete connected provider state with non-empty sequences. -/
def sampleState : BugfreeState :=
  { currentErrors := [some sampleError]
    currentSuggestions := [sampleSuggestion]
    isConnected := true
    hasWs := true }

/-- A concrete provider state whose connection is not open. -/
def disconnectedState : BugfreeState :=
  { currentErrors := [some sampleError]
    currentSuggestions := [sampleSuggestion]
    isConnected := false
    hasWs := true }

/-- A concrete suggestion whose explanation is present but empty. -/
def emptyExplanationSuggestion : FixSuggestion :=
  { title := "Rename variable"
    description := "Use a clearer name"
    code_snippet := "total = subtotal + tax"
    confidence_score := 1/2
    agent_source := "code_agent"
    explanation := some "" }

/-! ### Helper lemmas shared between claims -/

/-- Every operation extends the error sequence on the right: the prior
entries are kept, in order and value, and zero or more entries follow. -/
theorem step_errors_extend (op : Op) (st : BugfreeState) :
    ∃ tail, (step op st).1.currentErrors = st.currentErrors ++ tail := by
  cases op with
  | messageEvent parsed =>
    cases parsed with
    | none => exact ⟨[], by simp [step, onMessageEvent]⟩
    | some m =>
      by_cases h1 : m.type = "error_detected"
      · exact ⟨[m.error], by simp [step, onMessageEvent, handleBugfreeMessage, h1]⟩
      · by_cases h2 : m.type = "suggestions_ready"
        · exact ⟨[], by simp [step, onMessageEvent, handleBugfreeMessage, h1, h2]⟩
        · exact ⟨[], by simp [step, onMessageEvent, handleBugfreeMessage, h1, h2]⟩
  | openEvent => exact ⟨[], by simp [step, onOpenEvent]⟩
  | closeEvent => exact ⟨[], by simp [step, onCloseEvent]⟩
  | errorEvent => exact ⟨[], by simp [step, onErrorEvent]⟩
  | cmdStartSystem =>
    exact ⟨[], by simp only [step, startSystem]; split <;> simp⟩
  | cmdStopSystem =>
    exact ⟨[], by simp only [step, stopSystem]; split <;> simp⟩
  | cmdApplyFix s =>
    exact ⟨[], by simp only [step, applyFix]; split <;> simp⟩
  | cmdExplainFix s => exact ⟨[], by simp [step, explainFix]⟩
  | cmdAnalyzeError ed =>
    cases ed with
    | none => exact ⟨[], by simp [step, analyzeErrorCmd]⟩
    | some e => exact ⟨[], by simp only [step, analyzeErrorCmd]; split <;> simp⟩
  | cmdIgnoreError e => exact ⟨[], by simp [step, ignoreErrorCmd]⟩
  | cmdShowErrorDetails e => exact ⟨[], by simp [step, showErrorDetailsCmd]⟩
  | cmdShowSuggestionDetails s =>
    exact ⟨[], by simp [step, showSuggestionDetailsCmd, explainFix]⟩
  | disposeOp =>
    exact ⟨[], by simp only [step, dispose]; split <;> simp⟩

/-- Over any sequence of operations the error-sequence length never
decreases. -/
theorem run_errors_length_mono (ops : List Op) (st : BugfreeState) :
    st.currentErrors.length ≤ (run ops st).currentErrors.length := by
  induction ops generalizing st with
  | nil => exact le_refl _
  | cons op rest ih =>
    obtain ⟨tail, htail⟩ := step_errors_extend op st
    calc st.currentErrors.length
        ≤ (step op st).1.currentErrors.length := by
          rw [htail, List.length_append]; exact Nat.le_add_right _ _
      _ ≤ (run rest (step op st).1).currentErrors.length := ih _

/-! ### Claim theorems -/

/-- C2: for every current state and every inbound `suggestions_ready`
message carrying a suggestions array, handling the message replaces the
suggestion sequence wholesale: afterwards it equals exactly the array in
the payload, all prior suggestions are discarded, and the error sequence
is untouched. -/
theorem suggestions_ready_replaces_wholesale (st : BugfreeState)
    (m : InboundMessage) (arr : List FixSuggestion)
    (htype : m.type = "suggestions_ready")
    (harr : m.suggestions = some arr) :
    (handleBugfreeMessage m st).1.currentSuggestions = arr ∧
    (handleBugfreeMessage m st).1.currentErrors = st.currentErrors := by
  simp [handleBugfreeMessage, htype, harr]

theorem suggestions_ready_replaces_wholesale_witness :
    (handleBugfreeMessage
        { type := "suggestions_ready", error := none,
          suggestions := some [sampleSuggestion, sampleSuggestion] }
        sampleState).1.currentSuggestions = [sampleSuggestion, sampleSuggestion] ∧
    (handleBugfreeMessage
        { type := "suggestions_ready", error := none,
          suggestions := some [sampleSuggestion, sampleSuggestion] }
        sampleState).1.currentErrors = sampleState.currentErrors :=
  suggestions_ready_replaces_wholesale sampleState
    { type := "suggestions_ready", error := none,
      suggestions := some [sampleSuggestion, sampleSuggestion] }
    [sampleSuggestion, sampleSuggestion] rfl rfl

/-- C3: for every current state and every inbound `error_detected`
message, handling the message strictly appends: the error sequence
becomes the old sequence followed by the error carried in the message,
so its length grows by exactly one and every prior entry keeps its value
and position. -/
theorem error_detected_strictly_appends (st : BugfreeState)
    (m : InboundMessage) (htype : m.type = "error_detected") :
    (handleBugfreeMessage m st).1.currentErrors
        = st.currentErrors ++ [m.error] ∧
    (handleBugfreeMessage m st).1.currentErrors.length
        = st.currentErrors.length + 1 ∧
    ∀ i, i < st.currentErrors.length →
      (handleBugfreeMessage m st).1.currentErrors.get? i
          = st.currentErrors.get? i := by
  refine ⟨by simp [handleBugfreeMessage, htype], ?_, ?_⟩
  · simp [handleBugfreeMessage, htype]
  · intro i hi
    simp only [handleBugfreeMessage, htype, if_pos rfl]
    exact List.get?_append hi

theorem error_detected_strictly_appends_witness :
    (handleBugfreeMessage
        { type := "error_detected", error := some sampleError,
          suggestions := none } sampleState).1.currentErrors
      = sampleState.currentErrors ++ [some sampleError] ∧
    (handleBugfreeMessage
        { type := "error_detected", error := some sampleError,
          suggestions := none } sampleState).1.currentErrors.length
      = sampleState.currentErrors.length + 1 ∧
    ∀ i, i < sampleState.currentErrors.length →
      (handleBugfreeMessage
          { type := "error_detected", error := some sampleError,
            suggestions := none } sampleState).1.currentErrors.get? i
        = sampleState.currentErrors.get? i :=
  error_detected_strictly_appends sampleState
    { type := "error_detected", error := some sampleError,
      suggestions := none } rfl

/-- C4: a raw inbound payload that fails JSON parsing leaves the whole
provider state (both sequences included) unchanged, and its only effect
is a console log — no notice, no send, no exception escapes the
handler. -/
theorem malformed_payload_is_logged_only (st : BugfreeState) :
    (onMessageEvent none st).1 = st ∧
    (onMessageEvent none st).2 = [Effect.log "Error parsing Bugfree message:"] :=
  ⟨rfl, rfl⟩

/-- C5: a parsed message whose tag is neither `error_detected` nor
`suggestions_ready` leaves the error sequence, the suggestion sequence
and the connected flag unchanged and produces no effect at all — in
particular no UI notification. -/
theorem unrecognized_tag_silently_ignored (st : BugfreeState)
    (m : InboundMessage) (h1 : m.type ≠ "error_detected")
    (h2 : m.type ≠ "suggestions_ready") :
    (handleBugfreeMessage m st).1.currentErrors = st.currentErrors ∧
    (handleBugfreeMessage m st).1.currentSuggestions = st.currentSuggestions ∧
    (handleBugfreeMessage m st).1.isConnected = st.isConnected ∧
    (handleBugfreeMessage m st).2 = [] := by
  simp [handleBugfreeMessage, h1, h2]

theorem unrecognized_tag_silently_ignored_witness :
    (handleBugfreeMessage
        { type := "session_started", error := none, suggestions := none }
        sampleState).1.currentErrors = sampleState.currentErrors ∧
    (handleBugfreeMessage
        { type := "session_started", error := none, suggestions := none }
        sampleState).1.currentSuggestions = sampleState.currentSuggestions ∧
    (handleBugfreeMessage
        { type := "session_started", error := none, suggestions := none }
        sampleState).1.isConnected = sampleState.isConnected ∧
    (handleBugfreeMessage
        { type := "session_started", error := none, suggestions := none }
        sampleState).2 = [] :=
  unrecognized_tag_silently_ignored sampleState
    { type := "session_started", error := none, suggestions := none }
    (by decide) (by decide)

/-- C10: a `suggestions_ready` message whose suggestions field is absent
(or null or otherwise falsy, all modelled as `none`) replaces the
suggestion sequence with the empty sequence. -/
theorem suggestions_ready_missing_array_empties (st : BugfreeState)
    (m : InboundMessage) (htype : m.type = "suggestions_ready")
    (hmiss : m.suggestions = none) :
    (handleBugfreeMessage m st).1.currentSuggestions = [] := by
  simp [handleBugfreeMessage, htype, hmiss]

theorem suggestions_ready_missing_array_empties_witness :
    (handleBugfreeMessage
        { type := "suggestions_ready", error := none, suggestions := none }
        sampleState).1.currentSuggestions = [] :=
  suggestions_ready_missing_array_empties sampleState
    { type := "suggestions_ready", error := none, suggestions := none }
    rfl rfl

/-- C1 counterexample: in a concrete disconnected state, the stop-system
action performs zero network writes but also produces ZERO user-visible
notices, not exactly one: its guard has no else branch. -/
theorem outbound_disconnected_one_notice_false :
    disconnectedState.isConnected = false ∧
    sendCount (stopSystem disconnectedState).2 = 0 ∧
    noticeCount (stopSystem disconnectedState).2 ≠ 1 := by
  decide

/-- C1 amended: every outbound action invoked while the connection is
not open performs zero network writes and leaves the state unchanged;
start-system produces exactly one user-visible notice, while stop-system
and apply-fix produce none. -/
theorem outbound_disconnected_amended (st : BugfreeState)
    (s : FixSuggestion) (h : st.isConnected = false) :
    sendCount (startSystem st).2 = 0 ∧ noticeCount (startSystem st).2 = 1 ∧
    sendCount (stopSystem st).2 = 0 ∧ noticeCount (stopSystem st).2 = 0 ∧
    sendCount (applyFix s st).2 = 0 ∧ noticeCount (applyFix s st).2 = 0 ∧
    (startSystem st).1 = st ∧ (stopSystem st).1 = st ∧ (applyFix s st).1 = st := by
  simp [startSystem, stopSystem, applyFix, h, sendCount, noticeCount,
        Effect.isSend, Effect.isNotice]

theorem outbound_disconnected_amended_witness :
    sendCount (startSystem disconnectedState).2 = 0 ∧
    noticeCount (startSystem disconnectedState).2 = 1 ∧
    sendCount (stopSystem disconnectedState).2 = 0 ∧
    noticeCount (stopSystem disconnectedState).2 = 0 ∧
    sendCount (applyFix sampleSuggestion disconnectedState).2 = 0 ∧
    noticeCount (applyFix sampleSuggestion disconnectedState).2 = 0 ∧
    (startSystem disconnectedState).1 = disconnectedState ∧
    (stopSystem disconnectedState).1 = disconnectedState ∧
    (applyFix sampleSuggestion disconnectedState).1 = disconnectedState :=
  outbound_disconnected_amended disconnectedState sampleSuggestion rfl

/-- C6 counterexample: in a concrete state that is marked connected, the
`error` event handler does NOT mark the state disconnected — it leaves
the connected flag as it was. -/
theorem error_event_marks_disconnected_false :
    sampleState.isConnected = true ∧
    (onErrorEvent sampleState).1.isConnected ≠ false := by
  decide

/-- C6 amended: after the `open` event the state is marked connected and
the UI layer is notified (a notice is shown and the tree is refreshed);
after the `close` event the state is marked disconnected and the UI
layer is likewise notified; after the `error` event a user-visible error
notice is shown but the state — the connected flag included — is left
unchanged. -/
theorem connection_event_handlers_amended (st : BugfreeState) :
    (onOpenEvent st).1.isConnected = true ∧
    noticeCount (onOpenEvent st).2 = 1 ∧
    Effect.refresh ∈ (onOpenEvent st).2 ∧
    (onCloseEvent st).1.isConnected = false ∧
    noticeCount (onCloseEvent st).2 = 1 ∧
    Effect.refresh ∈ (onCloseEvent st).2 ∧
    (onErrorEvent st).1 = st ∧
    noticeCount (onErrorEvent st).2 = 1 := by
  refine ⟨rfl, rfl, ?_, rfl, rfl, ?_, rfl, rfl⟩ <;>
    simp [onOpenEvent, onCloseEvent]

/-- C7 counterexample: for a concrete suggestion whose explanation field
is present but equal to the empty string, the explain action does not
render the embedded explanation text; it substitutes the fallback
because the JavaScript truthiness test treats the empty string as
absent. -/
theorem explainFix_renders_embedded_text_false :
    emptyExplanationSuggestion.explanation = some "" ∧
    shownExplanationOf (explainFix emptyExplanationSuggestion sampleState).2
        ≠ some "" ∧
    shownExplanationOf (explainFix emptyExplanationSuggestion sampleState).2
        = some "No explanation available" := by
  refine ⟨rfl, ?_, rfl⟩
  intro h
  simp [explainFix, jsOrString, shownExplanationOf, emptyExplanationSuggestion] at h

/-- C7 amended: the explain action performs zero network writes and
leaves the whole provider state (error sequence, suggestion sequence and
connected flag) unchanged; the created document view shows the
embedded explanation text of the suggestion whenever that text is present and
non-empty, and shows the substitute text "No explanation available" when
the explanation is absent or empty. -/
theorem explainFix_amended (st : BugfreeState) (s : FixSuggestion) :
    (explainFix s st).1 = st ∧
    sendCount (explainFix s st).2 = 0 ∧
    (∀ e, s.explanation = some e → e ≠ "" →
      shownExplanationOf (explainFix s st).2 = some e) ∧
    (s.explanation = none ∨ s.explanation = some "" →
      shownExplanationOf (explainFix s st).2 = some "No explanation available") := by
  refine ⟨rfl, rfl, ?_, ?_⟩
  · intro e he hne
    simp [explainFix, shownExplanationOf, jsOrString, he, hne]
  · intro h
    rcases h with h | h <;> simp [explainFix, shownExplanationOf, jsOrString, h]

theorem explainFix_amended_witness :
    (explainFix sampleSuggestion sampleState).1 = sampleState ∧
    sendCount (explainFix sampleSuggestion sampleState).2 = 0 ∧
    shownExplanationOf (explainFix sampleSuggestion sampleState).2
        = some "The variable can be None here" :=
  ⟨(explainFix_amended sampleState sampleSuggestion).1,
   (explainFix_amended sampleState sampleSuggestion).2.1,
   (explainFix_amended sampleState sampleSuggestion).2.2.1
     "The variable can be None here" rfl (by decide)⟩

/-- C8: the connection-opening operation of the TypeScript source and of
the compiled output resolve the same host for every configuration
(defaulting to localhost), resolve identical targets whenever a port is
configured, and differ only in the default port — 8003 in the source,
8000 in the compiled output. -/
theorem connectTarget_src_out_refinement (config : BugfreeConfig) :
    (connectTarget_src config).host = (connectTarget_out config).host ∧
    (config.serverHost = none →
      (connectTarget_src config).host = "localhost" ∧
      (connectTarget_out config).host = "localhost") ∧
    (∀ p, config.serverPort = some p →
      connectTarget_src config = connectTarget_out config) ∧
    (config.serverPort = none →
      (connectTarget_src config).port = 8003 ∧
      (connectTarget_out config).port = 8000) := by
  refine ⟨rfl, ?_, ?_, ?_⟩
  · intro h; simp [connectTarget_src, connectTarget_out, h]
  · intro p hp; simp [connectTarget_src, connectTarget_out, hp]
  · intro h; simp [connectTarget_src, connectTarget_out, h]

theorem connectTarget_src_out_refinement_witness :
    (connectTarget_src { serverHost := none, serverPort := none }).port = 8003 ∧
    (connectTarget_out { serverHost := none, serverPort := none }).port = 8000 ∧
    (connectTarget_src { serverHost := none, serverPort := none }).host = "localhost" ∧
    connectTarget_src { serverHost := some "devbox", serverPort := some 9001 }
      = connectTarget_out { serverHost := some "devbox", serverPort := some 9001 } :=
  ⟨((connectTarget_src_out_refinement
       { serverHost := none, serverPort := none }).2.2.2 rfl).1,
   ((connectTarget_src_out_refinement
       { serverHost := none, serverPort := none }).2.2.2 rfl).2,
   ((connectTarget_src_out_refinement
       { serverHost := none, serverPort := none }).2.1 rfl).1,
   (connectTarget_src_out_refinement
       { serverHost := some "devbox", serverPort := some 9001 }).2.2.1 9001 rfl⟩

/-- C9: the error sequence is append-only — every single operation of
the component extends it on the right, keeping every prior entry in
value and position; the ignore-error command in particular leaves both
sequences exactly as they were and only shows one info notice; and over
every sequence of operations the error-sequence length never
decreases. -/
theorem error_sequence_append_only (op : Op) (ops : List Op)
    (st : BugfreeState) (e : ErrorContext) :
    (∃ tail, (step op st).1.currentErrors = st.currentErrors ++ tail) ∧
    step (Op.cmdIgnoreError e) st =
      (st, [Effect.notice (Notice.info ("Ignored error: " ++ e.error_message))]) ∧
    st.currentErrors.length ≤ (run ops st).currentErrors.length :=
  ⟨step_errors_extend op st, rfl, run_errors_length_mono ops st⟩
